import Mathlib

/-!
# Activity signup board (`src/static/app.js`)

A shallow embedding of the browser script: the values a decoded JSON body can
take, the JavaScript operations the script applies to them, the payload
normaliser, the two renderers, and the signup and unregister handlers as
functions on an explicit page state.

Modelling conventions.

* JSON numbers are integers (`Int`), written in decimal, as JavaScript writes
  every integer below `10^21` in absolute value; fractional and non-finite
  numbers are not represented.
* Strings are Lean strings; a character is counted as one unit by `length` and
  `slice`, as JavaScript does for every character of the Basic Multilingual
  Plane.
* An object is the list of its own enumerable properties in iteration order
  (the order of `Object.keys` and `Object.entries`).
* An exception is a value of `Except JSError`.
-/

namespace ActivityBoard

/-! ## JavaScript values -/

/-- The exceptions the script can meet. -/
inductive JSError where
  | typeError
  | uriError
  deriving DecidableEq

/-- A JavaScript value built from a decoded JSON body, plus `undefined`, the
result of reading a property that is not there. -/
inductive JSVal where
  | undefined
  | null
  | bool (b : Bool)
  | num (n : Int)
  | str (s : String)
  | arr (items : List JSVal)
  | obj (props : List (String × JSVal))

namespace JSVal

/-- `ToBoolean`: what `!v`, `v || w` and `v && w` test. -/
def truthy : JSVal → Bool
  | undefined => false
  | null => false
  | bool b => b
  | num n => n != 0
  | str s => s != ""
  | arr _ => true
  | obj _ => true

/-- `Array.isArray(v)`. -/
def isArray : JSVal → Bool
  | arr _ => true
  | _ => false

/-- `a || b` once both operands are values. -/
def orElse (a b : JSVal) : JSVal :=
  if a.truthy then a else b

end JSVal

open JSVal

/-- Whether an object has an own property called `k`. -/
def hasOwn (props : List (String × JSVal)) (k : String) : Bool :=
  (props.lookup k).isSome

/-- The property read `v.k`, for the property names this script reads
(`name`, `title`, `id`, `description`, `schedule`, `max_participants`,
`maxParticipants`, `capacity`, `participants`, `message`, `detail`, `length`):
a `TypeError` on `null` and `undefined`, the own property of an object, the
length of an array or a string, and `undefined` everywhere else. -/
def getProp (v : JSVal) (k : String) : Except JSError JSVal :=
  match v with
  | .undefined => throw JSError.typeError
  | .null => throw JSError.typeError
  | .obj props => pure ((props.lookup k).getD undefined)
  | .arr items => pure (if k = "length" then num items.length else undefined)
  | .str s => pure (if k = "length" then num s.length else undefined)
  | _ => pure undefined

/-- `s.slice(0, n)`. -/
def sliceTo (s : String) (n : Nat) : String :=
  String.mk (s.data.take n)

/-! ## String conversion and JSON serialisation -/

/-- One lower-case hexadecimal digit. -/
def hexLower (n : Nat) : Char :=
  if n < 10 then Char.ofNat (48 + n) else Char.ofNat (87 + n)

/-- One upper-case hexadecimal digit. -/
def hexUpper (n : Nat) : Char :=
  if n < 10 then Char.ofNat (48 + n) else Char.ofNat (55 + n)

/-- How `JSON.stringify` writes one character inside a string literal. -/
def quoteChar (c : Char) : List Char :=
  if c = '"' then ['\\', '"']
  else if c = '\\' then ['\\', '\\']
  else if c.toNat = 8 then ['\\', 'b']
  else if c.toNat = 12 then ['\\', 'f']
  else if c.toNat = 10 then ['\\', 'n']
  else if c.toNat = 13 then ['\\', 'r']
  else if c.toNat = 9 then ['\\', 't']
  else if c.toNat < 32 then ['\\', 'u', '0', '0', hexLower (c.toNat / 16), hexLower (c.toNat % 16)]
  else [c]

/-- The JSON string literal for `s`. -/
def quoteJSON (s : String) : String :=
  String.mk ('"' :: (s.data.flatMap quoteChar ++ ['"']))

mutual
/-- `JSON.stringify(v)`: `none` stands for the result `undefined`. -/
def stringify : JSVal → Option String
  | .undefined => none
  | .null => some "null"
  | .bool b => some (if b then "true" else "false")
  | .num n => some (toString n)
  | .str s => some (quoteJSON s)
  | .arr items => some ("[" ++ String.intercalate "," (stringifyItems items) ++ "]")
  | .obj props => some ("\x7b" ++ String.intercalate "," (stringifyProps props) ++ "\x7d")
/-- The serialised elements of an array: `undefined` is written `null`. -/
def stringifyItems : List JSVal → List String
  | [] => []
  | x :: xs => (stringify x).getD "null" :: stringifyItems xs
/-- The serialised members of an object: a member whose value is `undefined`
is left out. -/
def stringifyProps : List (String × JSVal) → List String
  | [] => []
  | (k, v) :: ps =>
    match stringify v with
    | none => stringifyProps ps
    | some s => (quoteJSON k ++ ":" ++ s) :: stringifyProps ps
end

mutual
/-- `ToString(v)`, which is also `ToPropertyKey(v)` for these values and what a
template literal applies to an interpolated value. An array is joined with
commas; an object is `[object Object]`, unless it has an own `toString`
property, which a decoded body can only fill with something that is not
callable: then no conversion exists and a `TypeError` is thrown. -/
def toStr : JSVal → Except JSError String
  | .undefined => pure "undefined"
  | .null => pure "null"
  | .bool b => pure (if b then "true" else "false")
  | .num n => pure (toString n)
  | .str s => pure s
  | .arr items => do
    let parts ← joinParts items
    pure (String.intercalate "," parts)
  | .obj props => if hasOwn props "toString" then throw JSError.typeError else pure "[object Object]"
/-- The pieces `Array.prototype.join` puts between the commas: the empty string
for `null` and `undefined`, the string conversion for everything else. -/
def joinParts : List JSVal → Except JSError (List String)
  | [] => pure []
  | x :: xs => do
    let a ← match x with
      | .undefined => pure ""
      | .null => pure ""
      | y => toStr y
    let rest ← joinParts xs
    pure (a :: rest)
end

/-! ## Writing a property of the collection under construction -/

/-- The array index a property key denotes, if it is one: the canonical decimal
spelling of an integer below `2^32 - 1`. Such keys come first, in ascending
numeric order, when an object is iterated. -/
def arrayIndex? (k : String) : Option Nat :=
  let cs := k.data
  if cs.all Char.isDigit && (cs.length == 1 || (cs.length > 1 && cs.head? != some '0')) then
    let n := cs.foldl (fun acc c => 10 * acc + (c.toNat - 48)) 0
    if n ≤ 4294967294 then some n else none
  else none

/-- Places a new index key `k` (denoting `n`) among the index keys that lead
the property list. -/
def insertIndexed (n : Nat) (k : String) (v : JSVal) :
    List (String × JSVal) → List (String × JSVal)
  | [] => [(k, v)]
  | (k', v') :: rest =>
    match arrayIndex? k' with
    | some m => if m < n then (k', v') :: insertIndexed n k v rest else (k, v) :: (k', v') :: rest
    | none => (k, v) :: (k', v') :: rest

/-- The assignment `byName[k] = v` on a plain object, `v` being an object:
the key `__proto__` reaches the prototype setter and creates no property; a
key already there keeps its place and takes the new value; a new index key is
sorted in among the index keys; any other new key goes last. -/
def setProp (props : List (String × JSVal)) (k : String) (v : JSVal) :
    List (String × JSVal) :=
  if k = "__proto__" then props
  else if hasOwn props k then props.map (fun p => if p.1 = k then (k, v) else p)
  else
    match arrayIndex? k with
    | some n => insertIndexed n k v props
    | none => props ++ [(k, v)]

/-! ## `normalizeActivities` -/

/-- The name of one array element (line 18):
`item.name || item.title || item.id || JSON.stringify(item).slice(0, 12)`. -/
def derivedName (item : JSVal) : Except JSError JSVal := do
  let name ← getProp item "name"
  if name.truthy then pure name else
  let title ← getProp item "title"
  if title.truthy then pure title else
  let id ← getProp item "id"
  if id.truthy then pure id else
  match stringify item with
  | none => throw JSError.typeError
  | some s => pure (.str (sliceTo s 12))

/-- The record built for one array element (lines 19 to 24). -/
def buildRecord (item : JSVal) : Except JSError JSVal := do
  let description ← getProp item "description"
  let description := if description.truthy then description else .str ""
  let schedule ← getProp item "schedule"
  let schedule := if schedule.truthy then schedule else .str ""
  let maxP ← getProp item "max_participants"
  let maxP ← if maxP.truthy then pure maxP else do
    let maxP ← getProp item "maxParticipants"
    if maxP.truthy then pure maxP else do
      let capacity ← getProp item "capacity"
      pure (if capacity.truthy then capacity else .num 0)
  let participants ← getProp item "participants"
  let participants := if participants.isArray then participants else .arr []
  pure (.obj [("description", description), ("schedule", schedule),
    ("max_participants", maxP), ("participants", participants)])

/-- The body of `raw.forEach(item => ...)`, run over the elements in order on
the collection built so far. -/
def normalizeLoop : List JSVal → List (String × JSVal) → Except JSError (List (String × JSVal))
  | [], byName => pure byName
  | item :: rest, byName => do
    let name ← derivedName item
    let record ← buildRecord item
    let key ← toStr name
    normalizeLoop rest (setProp byName key record)

/-- `normalizeActivities(raw)` (lines 8 to 30). -/
def normalizeActivities (raw : JSVal) : Except JSError JSVal :=
  if !raw.truthy then pure (.obj [])
  else
    match raw with
    | .obj _ => pure raw
    | .arr items => do
      let byName ← normalizeLoop items []
      pure (.obj byName)
    | _ => pure (.obj [])

/-- Whether `v` is an object that is neither `null` nor an array. -/
def JSVal.isPlainObject : JSVal → Bool
  | .obj _ => true
  | _ => false

/-- An operand of a numeric operator after `ToPrimitive`: an integer, `NaN`, or
a string still to be read as a number. -/
inductive NumOperand where
  | int (n : Int)
  | nan
  | text (s : String)
  deriving DecidableEq

/-- The parts of the browser the script relies on and this development leaves
open: reading a string as a number, which needs the numeric-literal grammar and
floating-point rounding; percent-decoding; and the user's answer to a
confirmation prompt. -/
structure Browser where
  /-- The text of `a - b` when an operand is a string. -/
  minusText : NumOperand → NumOperand → String
  /-- Whether `Number(s) > 0`. -/
  stringPositive : String → Bool
  /-- The call `decodeURIComponent(s)`, which throws a `URIError` on a malformed
  escape. -/
  decodeURIComponent : String → Except JSError String
  /-- The answer to `confirm(message)`. -/
  confirm : String → Bool

/-- `ToPrimitive` with hint number, up to the reading of a string. -/
def toOperand (v : JSVal) : Except JSError NumOperand :=
  match v with
  | .undefined => pure .nan
  | .null => pure (.int 0)
  | .bool b => pure (.int (if b then 1 else 0))
  | .num n => pure (.int n)
  | .str s => pure (.text s)
  | w => do
    let s ← toStr w
    pure (.text s)

/-- The text a template literal shows for `a - b`. -/
def minusText (B : Browser) (a b : JSVal) : Except JSError String := do
  let x ← toOperand a
  let y ← toOperand b
  match x, y with
  | .int m, .int n => pure (toString (m - n))
  | .nan, .int _ => pure "NaN"
  | .int _, .nan => pure "NaN"
  | .nan, .nan => pure "NaN"
  | x, y => pure (B.minusText x y)

/-- The test `v > 0`. -/
def isPositive (B : Browser) (v : JSVal) : Except JSError Bool := do
  let x ← toOperand v
  match x with
  | .int n => pure (decide (0 < n))
  | .nan => pure false
  | .text s => pure (B.stringPositive s)

/-- The UTF-8 bytes of a character. -/
def utf8Bytes (c : Char) : List Nat :=
  let n := c.toNat
  if n < 128 then [n]
  else if n < 2048 then [192 + n / 64, 128 + n % 64]
  else if n < 65536 then [224 + n / 4096, 128 + n / 64 % 64, 128 + n % 64]
  else [240 + n / 262144, 128 + n / 4096 % 64, 128 + n / 64 % 64, 128 + n % 64]

/-- Whether `encodeURIComponent` leaves a character as it is. -/
def isUnreserved (c : Char) : Bool :=
  c.isAlphanum || "-_.!~*()".data.contains c || c.toNat == 39

/-- `encodeURIComponent(s)`. -/
def encodeURIComponent (s : String) : String :=
  String.mk (s.data.flatMap (fun c =>
    if isUnreserved c then [c]
    else (utf8Bytes c).flatMap (fun b => ['%', hexUpper (b / 16), hexUpper (b % 16)])))

/-- The value assigned to `textContent`, as the string the element then shows:
`null` and `undefined` clear it. -/
def toDOMString (v : JSVal) : Except JSError String :=
  match v with
  | .undefined => pure ""
  | .null => pure ""
  | w => toStr w

/-- `Object.entries(v)`. -/
def objectEntries (v : JSVal) : Except JSError (List (String × JSVal)) :=
  match v with
  | .undefined => throw JSError.typeError
  | .null => throw JSError.typeError
  | .obj props => pure props
  | .arr items => pure (items.enum.map (fun p => (toString p.1, p.2)))
  | .str s => pure (s.data.enum.map (fun p => (toString p.1, .str (String.singleton p.2))))
  | _ => pure []

/-! ## The page -/

/-- An `<option>` of the activity selection control. -/
structure SelectOption where
  value : String
  text : String
  deriving DecidableEq

/-- A child of the list container: the nodes an `innerHTML` assignment parsed
from markup, or an appended `<div>` with its class and its own markup. -/
inductive ListChild where
  | markup (html : String)
  | card (className : String) (innerHTML : String)
  deriving DecidableEq

/-- A request handed to `fetch`. -/
structure Request where
  method : String
  url : String
  deriving DecidableEq

/-- What the script can change: the list container, the options of the
selection control, the text and the class tokens of the message area, the
number of `signupForm.reset()` calls, the requests issued and the delays of
the timers set with `setTimeout`, each of which hides the message when it
fires. Console output is left out. -/
structure Page where
  activitiesList : List ListChild
  activitySelect : List SelectOption
  messageText : String
  messageClass : List String
  formResets : Nat
  requests : List Request
  timers : List Nat
  deriving DecidableEq

/-- How a `fetch` followed by `response.json()` ends: the request is rejected,
or a response arrives with a status and a body that decodes (`some`) or fails
to (`none`). -/
inductive FetchOutcome where
  | rejected
  | response (status : Nat) (body : Option JSVal)

/-- `response.ok`. -/
def statusOk (status : Nat) : Bool :=
  decide (200 ≤ status) && decide (status ≤ 299)

/-- `messageDiv.classList.remove("hidden")`. -/
def showMessage (page : Page) : Page :=
  { page with messageClass := page.messageClass.filter (fun t => t != "hidden") }

/-- The timer callback `messageDiv.classList.add("hidden")`. -/
def hideMessage (page : Page) : Page :=
  { page with messageClass :=
      if page.messageClass.contains "hidden" then page.messageClass
      else page.messageClass ++ ["hidden"] }

/-- `setTimeout(..., delay)`. -/
def setTimer (delay : Nat) (page : Page) : Page :=
  { page with timers := page.timers ++ [delay] }

/-- The loop `while (activitySelect.options.length > 1) activitySelect.remove(1)`. -/
def resetSelect (options : List SelectOption) : List SelectOption :=
  if 1 < options.length then resetSelect (options.eraseIdx 1) else options
termination_by options.length
decreasing_by
  simp only [List.length_eraseIdx]
  split <;> omega

/-! ## Markup -/

/-- The placeholder item of an empty participants list. -/
def noParticipantsItem : String :=
  "<li class=\"no-participants\">No participants yet</li>"

/-- The item `fetchActivities` writes for one participant (lines 98 to 100),
`p` being the participant as a string. -/
def fetchRowText (name p : String) : String :=
  "<li><span class=\"participant-name\">" ++ p ++
    "</span> <button class=\x27delete-btn\x27 data-activity=\x27" ++ encodeURIComponent name ++
    "\x27 data-participant=\x27" ++ p ++ "\x27 aria-label=\x27Unregister " ++ p ++
    "\x27 title=\x27Unregister\x27>🗑️</button></li>"

/-- The item `renderActivities` writes for one participant (lines 155 to 157),
`p` being the participant as a string. -/
def renderRowText (name p : String) : String :=
  "<li>" ++ p ++
    " <button class=\x27delete-btn\x27 data-activity=\x27" ++ encodeURIComponent name ++
    "\x27 data-participant=\x27" ++ p ++ "\x27 aria-label=\x27Unregister " ++ p ++
    "\x27 title=\x27Unregister\x27>🗑️</button></li>"

/-- The arrow function mapped over the participants by `fetchActivities`. -/
def fetchRow (name : String) (p : JSVal) : Except JSError String := do
  let p ← toStr p
  pure (fetchRowText name p)

/-- The arrow function mapped over the participants by `renderActivities`. -/
def renderRow (name : String) (p : JSVal) : Except JSError String := do
  let p ← toStr p
  pure (renderRowText name p)

/-- The call `participants.map(row)` on an array: the rows in order, or the
first exception. -/
def mapRows (row : JSVal → Except JSError String) : List JSVal → Except JSError (List String)
  | [] => pure []
  | p :: ps => do
    let r ← row p
    let rs ← mapRows row ps
    pure (r :: rs)

/-- The participants block of `fetchActivities` around its list items
(lines 90 to 106). -/
def fetchBlock (items : List String) : String :=
  "<div class=\"participants\">\n               <h5 class=\"participants-title\">Participants</h5>\n               <ul class=\"participants-list no-bullets\">\n                 "
    ++ String.join items ++ "\n               </ul>\n             </div>"

/-- The participants block of `renderActivities` around its list items
(lines 147 to 163). -/
def renderBlock (items : List String) : String :=
  "<div class=\"participants\">\n             <h5 class=\"participants-title\">Participants</h5>\n             <ul class=\"participants-list\">\n               "
    ++ String.join items ++ "\n             </ul>\n           </div>"

/-- The markup `fetchActivities` gives a card (lines 108 to 114). -/
def fetchCardHTML (name description schedule spotsLeft participantsHTML : String) : String :=
  "\n          <h4>" ++ name ++ "</h4>\n          <p>" ++ description ++
    "</p>\n          <p><strong>Schedule:</strong> " ++ schedule ++
    "</p>\n          <p><strong>Availability:</strong> " ++ spotsLeft ++
    " spots left</p>\n          " ++ participantsHTML ++ "\n        "

/-- The markup `renderActivities` gives a card (lines 165 to 171). -/
def renderCardHTML (name description schedule spotsLeft participantsHTML : String) : String :=
  "\n        <h4>" ++ name ++ "</h4>\n        <p>" ++ description ++
    "</p>\n        <p><strong>Schedule:</strong> " ++ schedule ++
    "</p>\n        <p><strong>Availability:</strong> " ++ spotsLeft ++
    " spots left</p>\n        " ++ participantsHTML ++ "\n      "

/-- The notice shown when the listing request is answered with an error status
(lines 39 to 42). -/
def statusNotice (status : Nat) : String :=
  "\n          <p>Impossibile caricare le attività (status " ++ toString status ++
    "). Controlla il server o la rete.</p>\n          <button id=\"load-sample-btn\" class=\"debug-btn\">Carica attività di esempio</button>\n        "

/-- The notice shown when the collection is empty (lines 70 to 73). -/
def emptyNotice : String :=
  "\n          <p>Nessuna attività disponibile al momento.</p>\n          <button id=\"load-sample-btn\" class=\"debug-btn\">Carica attività di esempio</button>\n        "

/-- The notice shown by the `catch` of `fetchActivities` (lines 125 to 128). -/
def catchNotice : String :=
  "\n        <p>Errore di rete o JavaScript: impossibile caricare le attività.</p>\n        <button id=\"load-sample-btn\" class=\"debug-btn\">Carica attività di esempio</button>\n      "

/-! ## The populate loop of `fetchActivities` -/

/-- Line 82, `details.participants = Array.isArray(details.participants) ?
details.participants : []`, as the value later reads of `details.participants`
yield: the array already there or a fresh empty one on an object or an array;
on a number, a string or a boolean the assignment stores nothing, the read stays
`undefined` and its `length` cannot be taken. -/
def ensureParticipants (details : JSVal) : Except JSError (List JSVal) :=
  match details with
  | .obj props =>
    match props.lookup "participants" with
    | some (.arr ps) => pure ps
    | _ => pure []
  | .arr _ => pure []
  | _ => throw JSError.typeError

/-- The list items of a participants block (lines 94 to 103 and 151 to 160)
once the participants are known to be an array: one row each, or the single
placeholder when there is none. -/
def blockItems (row : JSVal → Except JSError String) (participants : List JSVal) :
    Except JSError (List String) :=
  if 0 < participants.length then mapRows row participants else pure [noParticipantsItem]

/-- The markup of the card `fetchActivities` builds for one entry
(lines 82 to 114). -/
def fetchCard (B : Browser) (name : String) (details : JSVal) : Except JSError String := do
  let participants ← ensureParticipants details
  let maxP ← getProp details "max_participants"
  let spotsLeft ← minusText B (maxP.orElse (.num 0)) (.num participants.length)
  let items ← blockItems (fetchRow name) participants
  let description ← getProp details "description"
  let description ← toStr description
  let schedule ← getProp details "schedule"
  let schedule ← toStr schedule
  pure (fetchCardHTML name description schedule spotsLeft (fetchBlock items))

/-- Appends a card and its option (lines 116 to 122 and 173 to 178). -/
def appendCard (name html : String) (page : Page) : Page :=
  { page with
    activitiesList := page.activitiesList ++ [.card "activity-card" html]
    activitySelect := page.activitySelect ++ [{ value := name, text := name }] }

/-- The loop `Object.entries(activities).forEach(...)` of `fetchActivities`:
the page after the last entry, or the page reached when an entry threw,
together with the exception. -/
def populate (B : Browser) : List (String × JSVal) → Page → Page × Option JSError
  | [], page => (page, none)
  | (name, details) :: rest, page =>
    match fetchCard B name details with
    | .error e => (page, some e)
    | .ok html => populate B rest (appendCard name html page)

/-- The request `fetch("/activities")`. -/
def listingRequest : Request :=
  { method := "GET", url := "/activities" }

/-- The `catch` block of `fetchActivities` (lines 125 to 131). -/
def fetchFailed (page : Page) : Page :=
  { page with activitiesList := [.markup catchNotice] }

/-- `fetchActivities()` (lines 33 to 133), given how its request ends. -/
def fetchActivities (B : Browser) (outcome : FetchOutcome) (page : Page) : Page :=
  let page := { page with requests := page.requests ++ [listingRequest] }
  match outcome with
  | .rejected => fetchFailed page
  | .response status body =>
    if !statusOk status then
      { page with activitiesList := [.markup (statusNotice status)] }
    else
      match body with
      | none => fetchFailed page
      | some raw =>
        match normalizeActivities raw with
        | .error _ => fetchFailed page
        | .ok activities =>
          let page := { page with
            activitiesList := []
            activitySelect := resetSelect page.activitySelect }
          if !activities.truthy then
            { page with activitiesList := [.markup emptyNotice] }
          else
            match objectEntries activities with
            | .error _ => fetchFailed page
            | .ok entries =>
              if entries.length = 0 then
                { page with activitiesList := [.markup emptyNotice] }
              else
                match populate B entries page with
                | (page, none) => page
                | (page, some _) => fetchFailed page

/-! ## `renderActivities` -/

/-- The markup of the card `renderActivities` builds for one entry
(lines 145 to 171). -/
def renderCard (B : Browser) (name : String) (details : JSVal) : Except JSError String := do
  let maxP ← getProp details "max_participants"
  let participants ← getProp details "participants"
  let length ← getProp participants "length"
  let spotsLeft ← minusText B maxP length
  let nonEmpty ← if participants.truthy then isPositive B length else pure false
  let items ←
    if nonEmpty then
      match participants with
      | .arr ps => mapRows (renderRow name) ps
      | _ => throw JSError.typeError
    else pure [noParticipantsItem]
  let description ← getProp details "description"
  let description ← toStr description
  let schedule ← getProp details "schedule"
  let schedule ← toStr schedule
  pure (renderCardHTML name description schedule spotsLeft (renderBlock items))

/-- The loop `Object.entries(activities).forEach(...)` of `renderActivities`. -/
def renderLoop (B : Browser) : List (String × JSVal) → Page → Page × Option JSError
  | [], page => (page, none)
  | (name, details) :: rest, page =>
    match renderCard B name details with
    | .error e => (page, some e)
    | .ok html => renderLoop B rest (appendCard name html page)

/-- `renderActivities(activities)` (lines 136 to 180): the page it leaves and
the exception it ends with, if any. -/
def renderActivities (B : Browser) (activities : JSVal) (page : Page) : Page × Option JSError :=
  let page := { page with
    activitiesList := []
    activitySelect := resetSelect page.activitySelect }
  match objectEntries activities with
  | .error e => (page, some e)
  | .ok entries => renderLoop B entries page

/-- `getSampleActivities()` (lines 183 to 198). -/
def getSampleActivities : JSVal :=
  .obj [("Robotics Club", .obj [("description", .str "Build and program robots."),
      ("schedule", .str "Wednesdays 3:30-5:00pm"), ("max_participants", .num 20),
      ("participants", .arr [.str "alice@mergington.edu", .str "bob@mergington.edu"])]),
    ("Photography", .obj [("description", .str "Learn photography techniques."),
      ("schedule", .str "Mondays 4:00-5:30pm"), ("max_participants", .num 12),
      ("participants", .arr [])])]

/-- A click on the sample-data button of a notice. -/
def loadSampleClick (B : Browser) (page : Page) : Page :=
  (renderActivities B getSampleActivities page).1

/-! ## The signup handler -/

/-- The request of lines 267 to 272. -/
def signupRequest (activity email : String) : Request :=
  { method := "POST"
    url := "/activities/" ++ encodeURIComponent activity ++ "/signup?email=" ++
      encodeURIComponent email }

/-- The `catch` block of the signup handler (lines 296 to 299). -/
def signupFailed (page : Page) : Page :=
  showMessage { page with
    messageText := "Failed to sign up. Please try again."
    messageClass := ["error"] }

/-- The submit handler of the signup form (lines 260 to 301): `email` and
`activity` are the values of the two form fields, `post` is how the signup
request ends and `reload` how the listing request of the refresh ends. -/
def signupSubmit (B : Browser) (email activity : String) (post reload : FetchOutcome)
    (page : Page) : Page :=
  let page := { page with requests := page.requests ++ [signupRequest activity email] }
  match post with
  | .rejected => signupFailed page
  | .response _ none => signupFailed page
  | .response status (some result) =>
    if statusOk status then
      match getProp result "message" >>= toDOMString with
      | .error _ => signupFailed page
      | .ok text =>
        let page := { page with
          messageText := text
          messageClass := ["message", "success"]
          formResets := page.formResets + 1 }
        let page := fetchActivities B reload page
        setTimer 5000 (showMessage page)
    else
      match getProp result "detail" >>= fun detail =>
          toDOMString (detail.orElse (.str "An error occurred")) with
      | .error _ => signupFailed page
      | .ok text =>
        let page := { page with
          messageText := text
          messageClass := ["message", "error"] }
        setTimer 5000 (showMessage page)

/-! ## The unregister handler -/

/-- The attributes of the element `event.target.closest(".delete-btn")` finds:
`none` is an attribute that is not there. -/
structure DeleteButton where
  dataParticipant : Option String
  dataActivity : Option String
  deriving DecidableEq

/-- The string a template literal or a built-in makes of the result of
`getAttribute`. -/
def attrText (a : Option String) : String :=
  a.getD "null"

/-- The request of lines 213 to 216. -/
def unregisterRequest (activity participant : String) : Request :=
  { method := "POST"
    url := "/activities/" ++ encodeURIComponent activity ++ "/unregister?email=" ++
      encodeURIComponent participant }

/-- The `catch` block of the unregister handler (lines 232 to 236). -/
def unregisterFailed (page : Page) : Page :=
  setTimer 5000 (showMessage { page with
    messageText := "Failed to unregister. Please try again."
    messageClass := ["message", "error"] })

/-- The click handler of the list container (lines 201 to 238): `target` is
the unregister control the click falls in, if any, `post` is how the unregister
request ends and `reload` how the listing request of the refresh ends. -/
def unregisterClick (B : Browser) (target : Option DeleteButton) (post reload : FetchOutcome)
    (page : Page) : Page :=
  match target with
  | none => page
  | some btn =>
    match B.decodeURIComponent (attrText btn.dataActivity) with
    | .error _ => page
    | .ok activity =>
      if !B.confirm ("Unregister " ++ attrText btn.dataParticipant ++ " from \"" ++ activity
          ++ "\"?") then page
      else
        let page := { page with requests := page.requests ++
          [unregisterRequest activity (attrText btn.dataParticipant)] }
        match post with
        | .rejected => unregisterFailed page
        | .response _ none => unregisterFailed page
        | .response status (some result) =>
          if statusOk status then
            match getProp result "message" >>= fun message =>
                toDOMString (message.orElse (.str "Unregistered successfully")) with
            | .error _ => unregisterFailed page
            | .ok text =>
              let page := showMessage { page with
                messageText := text
                messageClass := ["message", "success"] }
              let page := fetchActivities B reload page
              setTimer 5000 page
          else
            match getProp result "detail" >>= fun detail =>
                toDOMString (detail.orElse (.str "Failed to unregister")) with
            | .error _ => unregisterFailed page
            | .ok text =>
              let page := showMessage { page with
                messageText := text
                messageClass := ["message", "error"] }
              setTimer 5000 page

/-! ## Values for the worked examples -/

/-- A browser for the worked examples, none of which reads a string as a
number or decodes an escape: the user accepts every prompt. -/
def exampleBrowser : Browser where
  minusText := fun _ _ => "NaN"
  stringPositive := fun _ => false
  decodeURIComponent := fun s => .ok s
  confirm := fun _ => true

/-- The browser of the worked examples with a user who declines every
prompt. -/
def decliningBrowser : Browser :=
  { exampleBrowser with confirm := fun _ => false }

/-- A page for the worked examples: an empty list, the placeholder option and
two options of an earlier render, and a hidden message area. -/
def examplePage : Page where
  activitiesList := []
  activitySelect := [{ value := "", text := "-- Select an activity --" },
    { value := "Chess Club", text := "Chess Club" }, { value := "Art", text := "Art" }]
  messageText := ""
  messageClass := ["hidden"]
  formResets := 0
  requests := []
  timers := []

/-- C1: an array holding `null` makes `normalizeActivities` throw a `TypeError`
(the read `item.name` on `null`), so it does not return a collection on every
decoded JSON value. -/
theorem normalizeActivities_null_element_throws :
    normalizeActivities (.arr [.null]) = .error JSError.typeError := by
  rfl

/-- C4: on an input that is not an array, `normalizeActivities` returns the
input itself when it is an object other than `null`, and the empty collection
when it is `null`, `undefined`, a number, a string or a boolean. -/
theorem normalizeActivities_non_array (raw : JSVal) (h : raw.isArray = false) :
    normalizeActivities raw = .ok (if raw.isPlainObject then raw else .obj []) := by
  cases raw with
  | arr xs => simp [JSVal.isArray] at h
  | bool b => cases b <;> rfl
  | num n =>
    by_cases hn : n = 0 <;> simp [normalizeActivities, JSVal.truthy, JSVal.isPlainObject, hn, pure, Except.pure]
  | str s =>
    by_cases hs : s = "" <;> simp [normalizeActivities, JSVal.truthy, JSVal.isPlainObject, hs, pure, Except.pure]
  | _ => rfl

/-- C4, witness: a collection keyed by name is returned as it is. -/
theorem normalizeActivities_non_array_witness :
    normalizeActivities (.obj [("Chess", .obj [("max_participants", .num 12)])]) =
      .ok (if (JSVal.obj [("Chess", .obj [("max_participants", .num 12)])]).isPlainObject
        then .obj [("Chess", .obj [("max_participants", .num 12)])] else .obj []) :=
  normalizeActivities_non_array _ rfl

/-! ## Facts about the page operations -/

theorem resetSelect_nil : resetSelect [] = [] := by
  rw [resetSelect]; simp

theorem populate_frame (B : Browser) (entries : List (String × JSVal)) :
    ∀ page : Page,
      (populate B entries page).1.messageText = page.messageText ∧
      (populate B entries page).1.messageClass = page.messageClass ∧
      (populate B entries page).1.formResets = page.formResets ∧
      (populate B entries page).1.requests = page.requests ∧
      (populate B entries page).1.timers = page.timers := by
  induction entries with
  | nil => intro page; simp [populate]
  | cons e rest ih =>
    intro page
    obtain ⟨name, details⟩ := e
    simp only [populate]
    split
    · simp
    · rename_i html _
      have := ih (appendCard name html page)
      simpa [appendCard] using this

theorem fetchActivities_frame (B : Browser) (outcome : FetchOutcome) (page : Page) :
    (fetchActivities B outcome page).messageText = page.messageText ∧
    (fetchActivities B outcome page).messageClass = page.messageClass ∧
    (fetchActivities B outcome page).formResets = page.formResets ∧
    (fetchActivities B outcome page).requests =
      page.requests ++ [listingRequest] ∧
    (fetchActivities B outcome page).timers = page.timers := by
  unfold fetchActivities
  simp only
  split
  · simp [fetchFailed]
  · split
    · simp
    · split
      · simp [fetchFailed]
      · split
        · simp [fetchFailed]
        · split
          · simp
          · split
            · simp [fetchFailed]
            · split
              · simp
              · rename_i entries _ _
                split
                · rename_i pg hp
                  have := populate_frame B entries { page with
                    requests := page.requests ++ [listingRequest]
                    activitiesList := []
                    activitySelect := resetSelect page.activitySelect }
                  rw [hp] at this
                  simpa using this
                · rename_i pg e hp
                  have := populate_frame B entries { page with
                    requests := page.requests ++ [listingRequest]
                    activitiesList := []
                    activitySelect := resetSelect page.activitySelect }
                  rw [hp] at this
                  simpa [fetchFailed] using this

/-- A confirmed click on an unregister control sets exactly one timer of 5000 ms
and leaves the message area without the class `hidden`, however the request
ends. -/
theorem unregisterClick_confirmed_sets_timer (B : Browser) (btn : DeleteButton)
    (post reload : FetchOutcome) (page : Page) (activity : String)
    (hdecode : B.decodeURIComponent (attrText btn.dataActivity) = .ok activity)
    (hconfirm : ∀ message, B.confirm message = true) :
    (unregisterClick B (some btn) post reload page).timers = page.timers ++ [5000] ∧
    "hidden" ∉ (unregisterClick B (some btn) post reload page).messageClass := by
  simp only [unregisterClick, hdecode, hconfirm, Bool.not_true, Bool.false_eq_true, if_false]
  split
  · simp [unregisterFailed, setTimer, showMessage]
  · simp [unregisterFailed, setTimer, showMessage]
  · split
    · split
      · simp [unregisterFailed, setTimer, showMessage]
      · rename_i text _
        have hf := fetchActivities_frame B reload (showMessage { page with
          requests := page.requests ++ [unregisterRequest activity (attrText btn.dataParticipant)]
          messageText := text
          messageClass := ["message", "success"] })
        simp only [setTimer, hf.2.1, hf.2.2.2.2]
        simp [showMessage]
    · split
      · simp [unregisterFailed, setTimer, showMessage]
      · simp [setTimer, showMessage]

/-! ## The claims on the handlers -/

/-- C5, as amended: when the signup request completes with a JSON object as its
body, an ok response whose `message` is the string `m` leaves the message area
showing `m` with the classes `message success`, resets the form once and issues
exactly one listing request after the signup request; a response that is not ok
leaves the message area with the classes `message error`, the form not reset
and no listing request issued, showing the `detail` string when it is not empty
and `An error occurred` when `detail` is absent or empty. -/
theorem signupSubmit_completed (B : Browser) (email activity : String) (status : Nat)
    (props : List (String × JSVal)) (reload : FetchOutcome) (page : Page) :
    (statusOk status = true → ∀ m : String, props.lookup "message" = some (.str m) →
      (signupSubmit B email activity (.response status (some (.obj props))) reload
          page).messageText = m ∧
      (signupSubmit B email activity (.response status (some (.obj props))) reload
          page).messageClass = ["message", "success"] ∧
      (signupSubmit B email activity (.response status (some (.obj props))) reload
          page).formResets = page.formResets + 1 ∧
      (signupSubmit B email activity (.response status (some (.obj props))) reload
          page).requests = page.requests ++ [signupRequest activity email, listingRequest]) ∧
    (statusOk status = false → ∀ text : String,
      ((∃ d : String, props.lookup "detail" = some (.str d) ∧ d ≠ "" ∧ text = d) ∨
        ((props.lookup "detail" = none ∨ props.lookup "detail" = some (.str "")) ∧
          text = "An error occurred")) →
      (signupSubmit B email activity (.response status (some (.obj props))) reload
          page).messageText = text ∧
      (signupSubmit B email activity (.response status (some (.obj props))) reload
          page).messageClass = ["message", "error"] ∧
      (signupSubmit B email activity (.response status (some (.obj props))) reload
          page).formResets = page.formResets ∧
      (signupSubmit B email activity (.response status (some (.obj props))) reload
          page).requests = page.requests ++ [signupRequest activity email]) := by
  constructor
  · intro hok m hm
    have hf := fetchActivities_frame B reload
      { page with
        requests := page.requests ++ [signupRequest activity email]
        messageText := m
        messageClass := ["message", "success"]
        formResets := page.formResets + 1 }
    obtain ⟨h1, h2, h3, h4, _⟩ := hf
    simp only [signupSubmit, hok, getProp, hm, toDOMString, toStr, bind, Except.bind, pure,
      Except.pure, Option.getD, if_true, setTimer, showMessage, h1, h2, h3, h4]
    simp
  · intro hok text htext
    rcases htext with ⟨d, hd, hne, rfl⟩ | ⟨hd | hd, rfl⟩
    · have ht : (JSVal.str text).truthy = true := by simpa [JSVal.truthy] using hne
      simp [signupSubmit, hok, getProp, hd, toDOMString, toStr, bind, Except.bind, pure,
        Except.pure, JSVal.orElse, ht, setTimer, showMessage]
    · simp [signupSubmit, hok, getProp, hd, toDOMString, toStr, bind, Except.bind, pure,
        Except.pure, JSVal.orElse, JSVal.truthy, setTimer, showMessage]
    · simp [signupSubmit, hok, getProp, hd, toDOMString, toStr, bind, Except.bind, pure,
        Except.pure, JSVal.orElse, JSVal.truthy, setTimer, showMessage]

/-- C5, witness: the responses `{message: "Signed up!"}` with status 200 and
`{detail: "Activity full"}` with status 400 of the specification's examples. -/
theorem signupSubmit_completed_witness :
    ((signupSubmit exampleBrowser "a@x.com" "Chess Club"
        (.response 200 (some (.obj [("message", .str "Signed up!")]))) .rejected
          examplePage).messageText = "Signed up!" ∧
      (signupSubmit exampleBrowser "a@x.com" "Chess Club"
        (.response 200 (some (.obj [("message", .str "Signed up!")]))) .rejected
          examplePage).messageClass = ["message", "success"] ∧
      (signupSubmit exampleBrowser "a@x.com" "Chess Club"
        (.response 200 (some (.obj [("message", .str "Signed up!")]))) .rejected
          examplePage).formResets = examplePage.formResets + 1 ∧
      (signupSubmit exampleBrowser "a@x.com" "Chess Club"
        (.response 200 (some (.obj [("message", .str "Signed up!")]))) .rejected
          examplePage).requests =
        examplePage.requests ++ [signupRequest "Chess Club" "a@x.com", listingRequest]) ∧
    ((signupSubmit exampleBrowser "a@x.com" "Chess Club"
        (.response 400 (some (.obj [("detail", .str "Activity full")]))) .rejected
          examplePage).messageText = "Activity full" ∧
      (signupSubmit exampleBrowser "a@x.com" "Chess Club"
        (.response 400 (some (.obj [("detail", .str "Activity full")]))) .rejected
          examplePage).messageClass = ["message", "error"] ∧
      (signupSubmit exampleBrowser "a@x.com" "Chess Club"
        (.response 400 (some (.obj [("detail", .str "Activity full")]))) .rejected
          examplePage).formResets = examplePage.formResets ∧
      (signupSubmit exampleBrowser "a@x.com" "Chess Club"
        (.response 400 (some (.obj [("detail", .str "Activity full")]))) .rejected
          examplePage).requests =
        examplePage.requests ++ [signupRequest "Chess Club" "a@x.com"]) :=
  ⟨(signupSubmit_completed exampleBrowser "a@x.com" "Chess Club" 200
      [("message", .str "Signed up!")] .rejected examplePage).1 rfl "Signed up!" rfl,
   (signupSubmit_completed exampleBrowser "a@x.com" "Chess Club" 400
      [("detail", .str "Activity full")] .rejected examplePage).2 rfl "Activity full"
      (Or.inl ⟨"Activity full", rfl, by decide, rfl⟩)⟩

/-- C5, counterexample: for a response with status 400 and body `{detail: ""}`
the message area does not show the detail, the empty string, but the fallback
message. -/
theorem signupSubmit_empty_detail_counterexample :
    (signupSubmit exampleBrowser "a@x.com" "Chess Club"
      (.response 400 (some (.obj [("detail", .str "")]))) .rejected examplePage).messageText
      ≠ "" := by
  decide

/-- C6: when the signup request is rejected, or its body fails to decode, the
handler shows the message and sets no timer to hide it again, the classes of
the message area being `error` alone. -/
theorem signupSubmit_exception_sets_no_timer (B : Browser) (email activity : String)
    (status : Nat) (reload : FetchOutcome) (page : Page) :
    (signupSubmit B email activity .rejected reload page).timers = page.timers ∧
    (signupSubmit B email activity (.response status none) reload page).timers = page.timers ∧
    (signupSubmit B email activity .rejected reload page).messageClass = ["error"] := by
  simp [signupSubmit, signupFailed, showMessage]

/-- C7: when the user declines the confirmation prompt, a click on an
unregister control leaves the whole page as it was: the list container, the
selection control, the message area, and the requests issued, to which none is
added. -/
theorem unregisterClick_declined (B : Browser) (btn : DeleteButton)
    (post reload : FetchOutcome) (page : Page)
    (hdecline : ∀ message, B.confirm message = false) :
    unregisterClick B (some btn) post reload page = page := by
  simp only [unregisterClick]
  split
  · rfl
  · simp [hdecline]

/-- C7, witness: a click on the control of `a@x.com` in `Chess Club`, declined. -/
theorem unregisterClick_declined_witness :
    unregisterClick decliningBrowser
      (some { dataParticipant := some "a@x.com", dataActivity := some "Chess%20Club" })
      (.response 200 (some (.obj [("message", .str "Unregistered")]))) .rejected examplePage =
      examplePage :=
  unregisterClick_declined decliningBrowser _ _ _ _ (fun _ => rfl)

/-! ## Facts about the cards -/

/-- C10: on the one-entry collection `{A: {description: "d", schedule: "s",
max_participants: 1, participants: ["p"]}}` the list `renderActivities` leaves is
not the list `fetchActivities` leaves: the card of `renderActivities` is indented
less, its `<ul>` lacks the class `no-bullets`, and its row lacks the `<span
class="participant-name">` around the participant. -/
theorem renderActivities_markup_differs :
    (renderActivities exampleBrowser
      (.obj [("A", .obj [("description", .str "d"), ("schedule", .str "s"),
        ("max_participants", .num 1), ("participants", .arr [.str "p"])])])
      examplePage).1.activitiesList ≠
    (fetchActivities exampleBrowser (.response 200 (some
      (.obj [("A", .obj [("description", .str "d"), ("schedule", .str "s"),
        ("max_participants", .num 1), ("participants", .arr [.str "p"])])])))
      examplePage).activitiesList := by
  decide

end ActivityBoard
